import Mathlib

/-!
Verification of the PV/battery MILP dispatch program.

The development shallowly embeds the Python sources:
  * `model_builder.create_milp_model` — builds the MILP (variables, constraints,
    objective) for the battery/solar/grid dispatch problem;
  * `data_loader.get_time_of_use_rates` — the tariff mapper;
  * `solver.solve_milp` and `solver.extract_results` — the solve orchestrator;
  * the dispatch logic of `main.main` around solve/extract.

Python dicts of configuration values are modelled as records of `Option ℚ`
(a missing key yields `none`, and reading it raises, i.e. returns `.error`);
Python list/array indexing is modelled with `List.get?` (out of range raises);
Python `max()` raises on an empty sequence.  Python lists are heap objects, so
list-valued fields carry an explicit reference (`PyList.ref`): assigning a
list-valued expression to a dict entry copies the reference, never the data.
Numbers are modelled as exact rationals.
-/

namespace Milp4Battery

/-- A Python list object: a heap reference paired with its contents.
Assignment of a list-valued expression copies the reference, so two fields
holding the same `ref` are the same Python object (alias, not a copy). -/
structure PyList (β : Type) where
  ref : Nat
  val : List β
deriving DecidableEq

/-- A timestamp; the program only ever reads its `.hour` field. -/
structure Timestamp where
  hour : Nat
deriving DecidableEq

/-- The `data` dict produced by `data_loader.load_data`:
keys `time`, `solar_production`, `load_demand`. -/
structure InputData where
  time : PyList Timestamp
  solar_production : PyList ℚ
  load_demand : PyList ℚ
deriving DecidableEq

/-- The `battery_params` dict of `main.py`; each field models a dict key that
may be absent (`none`). -/
structure BatteryParams where
  capacity_kwh : Option ℚ
  min_soc : Option ℚ
  max_soc : Option ℚ
  initial_soc : Option ℚ
  charge_efficiency : Option ℚ
  discharge_efficiency : Option ℚ
  max_charge_rate : Option ℚ
  max_discharge_rate : Option ℚ
deriving DecidableEq

/-- The `cost_params` dict of `main.py`. -/
structure CostParams where
  day_rate : Option ℚ
  night_rate : Option ℚ
  boost_rate : Option ℚ
  sell_price : Option ℚ
deriving DecidableEq

/-- Structural (Python) errors raised while reading the inputs. -/
inductive BuildError
  | keyError (key : String)
  | indexError (name : String) (idx : Nat)
  | valueError (msg : String)
deriving DecidableEq

/-- Reading a dict key: `d[k]` raises `KeyError` when the key is absent. -/
def exKey? (v : Option ℚ) (key : String) : Except BuildError ℚ :=
  match v with
  | some x => .ok x
  | none => .error (.keyError key)

/-- Indexing a list/array: `l[t]` raises `IndexError` out of range. -/
def exIdx? {α : Type} (l : List α) (t : Nat) (name : String) :
    Except BuildError α :=
  match l.get? t with
  | some v => .ok v
  | none => .error (.indexError name t)

/-- Python `max()` over a sequence: raises `ValueError` on an empty one. -/
def pyMax (l : List ℚ) : Except BuildError ℚ :=
  match l with
  | [] => .error (.valueError "max() arg is an empty sequence")
  | x :: xs => .ok (xs.foldl max x)

/-- The value `max()` returns on a nonempty list (junk `0` on `[]`). -/
def listMax (l : List ℚ) : ℚ :=
  match l with
  | [] => 0
  | x :: xs => xs.foldl max x

/-- Effectful map over a list of indices, stopping at the first raised error:
the semantics of a Python `for` loop (or comprehension) whose body may raise. -/
def exMapM {α : Type} (f : Nat → Except BuildError α) :
    List Nat → Except BuildError (List α)
  | [] => .ok []
  | t :: ts => do
    let a ← f t
    let as ← exMapM f ts
    pure (a :: as)

/-- The decision variables added by `create_milp_model`, one per time step. -/
inductive Var
  | P_solar_household (t : Nat)
  | P_solar_battery (t : Nat)
  | P_solar_grid (t : Nat)
  | P_battery_household (t : Nat)
  | P_grid_battery (t : Nat)
  | P_grid_household (t : Nat)
  | SE (t : Nat)
  | BC (t : Nat)
  | BD (t : Nat)
  | GF (t : Nat)
deriving DecidableEq

/-- Linear expressions as gurobipy builds them from the source text:
sums, differences, and scalar products/quotients of variables. -/
inductive LinExpr
  | const (q : ℚ)
  | var (v : Var)
  | add (a b : LinExpr)
  | sub (a b : LinExpr)
  | mulc (a : LinExpr) (q : ℚ)
  | divc (a : LinExpr) (q : ℚ)
deriving DecidableEq

/-- Value of a linear expression under an assignment of the variables. -/
def LinExpr.eval (x : Var → ℚ) : LinExpr → ℚ
  | .const q => q
  | .var v => x v
  | .add a b => a.eval x + b.eval x
  | .sub a b => a.eval x - b.eval x
  | .mulc a q => a.eval x * q
  | .divc a q => a.eval x / q

/-- Constraint senses accepted by `model.addConstr`. -/
inductive Rel
  | le
  | eq
  | ge
deriving DecidableEq

/-- A named linear constraint, as passed to `model.addConstr`. -/
structure Constr where
  name : String
  lhs : LinExpr
  rel : Rel
  rhs : LinExpr
deriving DecidableEq

/-- Objective sense: `GRB.MINIMIZE` / `GRB.MAXIMIZE`. -/
inductive ObjSense
  | minimize
  | maximize
deriving DecidableEq

/-- The constructed MILP: variables (all with lower bound 0), the subset
declared binary, objective, objective sense, and the constraint list. -/
structure Model where
  T : Nat
  varList : List Var
  binaryList : List Var
  objective : LinExpr
  objSense : ObjSense
  constrs : List Constr
deriving DecidableEq

/-- An assignment satisfies one constraint. -/
def constrSat (x : Var → ℚ) (c : Constr) : Prop :=
  match c.rel with
  | .le => c.lhs.eval x ≤ c.rhs.eval x
  | .eq => c.lhs.eval x = c.rhs.eval x
  | .ge => c.rhs.eval x ≤ c.lhs.eval x

/-- A feasible assignment of the model: variable lower bounds (all variables
are added with `lb=0`), integrality of the binary variables, and every
constraint. -/
def Model.feasible (m : Model) (x : Var → ℚ) : Prop :=
  (∀ v ∈ m.varList, 0 ≤ x v) ∧
  (∀ v ∈ m.binaryList, x v = 0 ∨ x v = 1) ∧
  (∀ c ∈ m.constrs, constrSat x c)

/-- The `conversion_factor = (5/60)/1000` of `model_builder.py`
(5-minute steps to hours, then watts to kilowatts). -/
def conversion_factor : ℚ := (5 / 60) / 1000

/-- Body of the objective `quicksum` of `create_milp_model`:
`(P_grid_household[t] + P_grid_battery[t]) * conversion_factor * buy_rates[t]
 - P_solar_grid[t] * conversion_factor * sell_price`. -/
def objTerm (cost_params : CostParams) (buy_rates : List (Nat × ℚ)) (t : Nat) :
    Except BuildError LinExpr := do
  let br ← exKey? (buy_rates.lookup t) "buy_rates"
  let sp ← exKey? cost_params.sell_price "sell_price"
  pure (LinExpr.sub
    (.mulc (.mulc (.add (.var (.P_grid_household t)) (.var (.P_grid_battery t)))
      conversion_factor) br)
    (.mulc (.mulc (.var (.P_solar_grid t)) conversion_factor) sp))

/-- Constraint 1 of `create_milp_model`: solar power balance at step `t`. -/
def solarBalanceC (data : InputData) (t : Nat) :
    Except BuildError (List Constr) := do
  let s ← exIdx? data.solar_production.val t "solar_production"
  pure [Constr.mk ("solar_balance_" ++ toString t)
    (.add (.add (.var (.P_solar_household t)) (.var (.P_solar_battery t)))
      (.var (.P_solar_grid t))) .eq (.const s)]

/-- Constraint 2 of `create_milp_model`: load demand satisfaction at `t`. -/
def loadBalanceC (data : InputData) (t : Nat) :
    Except BuildError (List Constr) := do
  let d ← exIdx? data.load_demand.val t "load_demand"
  pure [Constr.mk ("load_balance_" ++ toString t)
    (.add (.add (.var (.P_solar_household t)) (.var (.P_battery_household t)))
      (.var (.P_grid_household t))) .eq (.const d)]

/-- Constraint 3 of `create_milp_model`: battery dynamics at step `t`
(`t = 0` uses the initial state of charge, `t > 0` chains to `SE[t-1]`). -/
def batteryDynamicsC (battery_params : BatteryParams) (t : Nat) :
    Except BuildError (List Constr) := do
  if t = 0 then
    let isoc ← exKey? battery_params.initial_soc "initial_soc"
    let cap ← exKey? battery_params.capacity_kwh "capacity_kwh"
    let ce ← exKey? battery_params.charge_efficiency "charge_efficiency"
    let de ← exKey? battery_params.discharge_efficiency "discharge_efficiency"
    pure [Constr.mk ("battery_dynamics_" ++ toString t) (.var (.SE t)) .eq
      (.sub (.add (.const (isoc * cap))
        (.mulc (.mulc (.add (.var (.P_solar_battery t)) (.var (.P_grid_battery t)))
          conversion_factor) ce))
        (.divc (.mulc (.var (.P_battery_household t)) conversion_factor) de))]
  else
    let ce ← exKey? battery_params.charge_efficiency "charge_efficiency"
    let de ← exKey? battery_params.discharge_efficiency "discharge_efficiency"
    pure [Constr.mk ("battery_dynamics_" ++ toString t) (.var (.SE t)) .eq
      (.sub (.add (.var (.SE (t - 1)))
        (.mulc (.mulc (.add (.var (.P_solar_battery t)) (.var (.P_grid_battery t)))
          conversion_factor) ce))
        (.divc (.mulc (.var (.P_battery_household t)) conversion_factor) de))]

/-- Constraint 4 of `create_milp_model`: state-of-charge bounds at `t`. -/
def socBoundsC (battery_params : BatteryParams) (t : Nat) :
    Except BuildError (List Constr) := do
  let ms ← exKey? battery_params.min_soc "min_soc"
  let cap ← exKey? battery_params.capacity_kwh "capacity_kwh"
  let hs ← exKey? battery_params.max_soc "max_soc"
  pure [Constr.mk ("soc_min_" ++ toString t) (.var (.SE t)) .ge (.const (ms * cap)),
    Constr.mk ("soc_max_" ++ toString t) (.var (.SE t)) .le (.const (hs * cap))]

/-- Constraint 5 of `create_milp_model`: charging rate limit at `t`. -/
def chargeLimitC (battery_params : BatteryParams) (t : Nat) :
    Except BuildError (List Constr) := do
  let mcr ← exKey? battery_params.max_charge_rate "max_charge_rate"
  pure [Constr.mk ("charge_limit_" ++ toString t)
    (.add (.var (.P_solar_battery t)) (.var (.P_grid_battery t))) .le (.const mcr)]

/-- Constraint 6 of `create_milp_model`: discharging rate limit at `t`. -/
def dischargeLimitC (battery_params : BatteryParams) (t : Nat) :
    Except BuildError (List Constr) := do
  let mdr ← exKey? battery_params.max_discharge_rate "max_discharge_rate"
  pure [Constr.mk ("discharge_limit_" ++ toString t)
    (.var (.P_battery_household t)) .le (.const mdr)]

/-- Constraint 7 of `create_milp_model`: big-M linkage of the charge and
discharge flows to the binary mode indicators at `t`. -/
def binaryLinkC (battery_params : BatteryParams) (t : Nat) :
    Except BuildError (List Constr) := do
  let mcr ← exKey? battery_params.max_charge_rate "max_charge_rate"
  let mdr ← exKey? battery_params.max_discharge_rate "max_discharge_rate"
  pure [Constr.mk ("charge_binary_" ++ toString t)
    (.add (.var (.P_solar_battery t)) (.var (.P_grid_battery t))) .le
    (.mulc (.var (.BC t)) mcr),
    Constr.mk ("discharge_binary_" ++ toString t)
    (.var (.P_battery_household t)) .le (.mulc (.var (.BD t)) mdr)]

/-- Constraint 8 of `create_milp_model`: `BC[t] + BD[t] <= 1`. -/
def noSimultaneousC (t : Nat) : Except BuildError (List Constr) :=
  pure [Constr.mk ("no_simultaneous_" ++ toString t)
    (.add (.var (.BC t)) (.var (.BD t))) .le (.const 1)]

/-- Constraint 9 of `create_milp_model`: grid flow direction big-M linkage
at `t`; the horizon maxima are re-evaluated inside the loop. -/
def gridFlowC (data : InputData) (battery_params : BatteryParams) (t : Nat) :
    Except BuildError (List Constr) := do
  let mcr ← exKey? battery_params.max_charge_rate "max_charge_rate"
  let ml ← pyMax data.load_demand.val
  let msol ← pyMax data.solar_production.val
  pure [Constr.mk ("grid_flow_from_" ++ toString t)
    (.add (.var (.P_grid_household t)) (.var (.P_grid_battery t))) .le
    (.mulc (.var (.GF t)) (mcr + ml)),
    Constr.mk ("grid_flow_to_" ++ toString t)
    (.var (.P_solar_grid t)) .le
    (.mulc (.sub (.const 1) (.var (.GF t))) msol)]

/-- The variables `model.addVars` creates, in declaration order: the six
continuous flow variables and `SE` (all `lb=0`), then `BC`, `BD`, `GF`. -/
def allVars (time_steps : List Nat) : List Var :=
  time_steps.map Var.P_solar_household ++ time_steps.map Var.P_solar_battery ++
  time_steps.map Var.P_solar_grid ++ time_steps.map Var.P_battery_household ++
  time_steps.map Var.P_grid_battery ++ time_steps.map Var.P_grid_household ++
  time_steps.map Var.SE ++ time_steps.map Var.BC ++ time_steps.map Var.BD ++
  time_steps.map Var.GF

/-- The variables declared with `vtype=GRB.BINARY`: `BC`, `BD`, `GF`. -/
def allBinaries (time_steps : List Nat) : List Var :=
  time_steps.map Var.BC ++ time_steps.map Var.BD ++ time_steps.map Var.GF

/-- Shallow embedding of `model_builder.create_milp_model`.  Statements are
translated in source order; every dict read and every list indexing goes
through the raising accessors, so the result is `.error e` exactly when the
Python function raises.  `buy_rates` is the dict produced by
`get_time_of_use_rates`, modelled as an association list. -/
def create_milp_model (data : InputData) (battery_params : BatteryParams)
    (cost_params : CostParams) (buy_rates : List (Nat × ℚ)) :
    Except BuildError Model := do
  let T := data.time.val.length
  let time_steps := List.range T
  let objTerms ← exMapM (objTerm cost_params buy_rates) time_steps
  let obj := objTerms.foldl LinExpr.add (.const 0)
  let solarCs ← exMapM (solarBalanceC data) time_steps
  let loadCs ← exMapM (loadBalanceC data) time_steps
  let dynCs ← exMapM (batteryDynamicsC battery_params) time_steps
  let socCs ← exMapM (socBoundsC battery_params) time_steps
  let chargeCs ← exMapM (chargeLimitC battery_params) time_steps
  let dischargeCs ← exMapM (dischargeLimitC battery_params) time_steps
  let binCs ← exMapM (binaryLinkC battery_params) time_steps
  let exclCs ← exMapM noSimultaneousC time_steps
  let gridCs ← exMapM (gridFlowC data battery_params) time_steps
  pure
    { T := T
      varList := allVars time_steps
      binaryList := allBinaries time_steps
      objective := obj
      objSense := .minimize
      constrs := solarCs.flatten ++ loadCs.flatten ++ dynCs.flatten ++ socCs.flatten ++
        chargeCs.flatten ++ dischargeCs.flatten ++ binCs.flatten ++ exclCs.flatten ++
        gridCs.flatten }

/-- Pure value of `objTerm` once the dict reads have succeeded. -/
def objTermP (brv : Nat → ℚ) (sp : ℚ) (t : Nat) : LinExpr :=
  LinExpr.sub
    (.mulc (.mulc (.add (.var (.P_grid_household t)) (.var (.P_grid_battery t)))
      conversion_factor) (brv t))
    (.mulc (.mulc (.var (.P_solar_grid t)) conversion_factor) sp)

/-- Pure value of `batteryDynamicsC` once the dict reads have succeeded. -/
def batteryDynamicsP (isoc cap ce de : ℚ) (t : Nat) : List Constr :=
  [Constr.mk ("battery_dynamics_" ++ toString t) (.var (.SE t)) .eq
    (.sub (.add (if t = 0 then LinExpr.const (isoc * cap)
        else LinExpr.var (.SE (t - 1)))
      (.mulc (.mulc (.add (.var (.P_solar_battery t)) (.var (.P_grid_battery t)))
        conversion_factor) ce))
      (.divc (.mulc (.var (.P_battery_household t)) conversion_factor) de))]

/-- Pure value of `binaryLinkC` once the dict reads have succeeded. -/
def binaryLinkP (mcr mdr : ℚ) (t : Nat) : List Constr :=
  [Constr.mk ("charge_binary_" ++ toString t)
    (.add (.var (.P_solar_battery t)) (.var (.P_grid_battery t))) .le
    (.mulc (.var (.BC t)) mcr),
   Constr.mk ("discharge_binary_" ++ toString t)
    (.var (.P_battery_household t)) .le (.mulc (.var (.BD t)) mdr)]

/-- Pure value of `noSimultaneousC`. -/
def noSimultaneousP (t : Nat) : List Constr :=
  [Constr.mk ("no_simultaneous_" ++ toString t)
    (.add (.var (.BC t)) (.var (.BD t))) .le (.const 1)]

/-- Pure value of `gridFlowC` once the dict reads and maxima have succeeded. -/
def gridFlowP (data : InputData) (mcr : ℚ) (t : Nat) : List Constr :=
  [Constr.mk ("grid_flow_from_" ++ toString t)
    (.add (.var (.P_grid_household t)) (.var (.P_grid_battery t))) .le
    (.mulc (.var (.GF t)) (mcr + listMax data.load_demand.val)),
   Constr.mk ("grid_flow_to_" ++ toString t)
    (.var (.P_solar_grid t)) .le
    (.mulc (.sub (.const 1) (.var (.GF t))) (listMax data.solar_production.val))]

/-- The model `create_milp_model` returns once every dict read and every
indexing has succeeded, written as a pure function of the read values
(`brv t` is the buy rate of step `t`).  The bridging theorem
`create_milp_model_ok` proves `create_milp_model` returns exactly this. -/
def buildModel (data : InputData) (brv : Nat → ℚ)
    (isoc cap ce de ms hs mcr mdr sp : ℚ) : Model :=
  let T := data.time.val.length
  let time_steps := List.range T
  { T := T
    varList := allVars time_steps
    binaryList := allBinaries time_steps
    objective := (time_steps.map (objTermP brv sp)).foldl LinExpr.add (.const 0)
    objSense := .minimize
    constrs :=
      (time_steps.map (fun t => [Constr.mk ("solar_balance_" ++ toString t)
        (.add (.add (.var (.P_solar_household t)) (.var (.P_solar_battery t)))
          (.var (.P_solar_grid t))) .eq
        (.const (data.solar_production.val.getD t 0))])).flatten ++
      (time_steps.map (fun t => [Constr.mk ("load_balance_" ++ toString t)
        (.add (.add (.var (.P_solar_household t)) (.var (.P_battery_household t)))
          (.var (.P_grid_household t))) .eq
        (.const (data.load_demand.val.getD t 0))])).flatten ++
      (time_steps.map (batteryDynamicsP isoc cap ce de)).flatten ++
      (time_steps.map (fun t =>
        [Constr.mk ("soc_min_" ++ toString t) (.var (.SE t)) .ge (.const (ms * cap)),
         Constr.mk ("soc_max_" ++ toString t) (.var (.SE t)) .le
           (.const (hs * cap))])).flatten ++
      (time_steps.map (fun t => [Constr.mk ("charge_limit_" ++ toString t)
        (.add (.var (.P_solar_battery t)) (.var (.P_grid_battery t))) .le
        (.const mcr)])).flatten ++
      (time_steps.map (fun t => [Constr.mk ("discharge_limit_" ++ toString t)
        (.var (.P_battery_household t)) .le (.const mdr)])).flatten ++
      (time_steps.map (binaryLinkP mcr mdr)).flatten ++
      (time_steps.map noSimultaneousP).flatten ++
      (time_steps.map (gridFlowP data mcr)).flatten }

/-- One iteration of the `get_time_of_use_rates` loop: map step `t` to the
rate of its hour-of-day band (the branch cascade is translated verbatim;
only the rate key of the branch actually taken is read, so only that key can
raise). -/
def touEntry (data : InputData) (cost_params : CostParams) (t : Nat) :
    Except BuildError (Nat × ℚ) := do
  let ts ← exIdx? data.time.val t "time"
  let hour := ts.hour
  let r ←
    if 2 ≤ hour ∧ hour < 4 then          -- Boost: 02:00 to 04:00
      exKey? cost_params.boost_rate "boost_rate"
    else if 23 ≤ hour ∨ hour < 8 then    -- Night: 23:00 to 08:00
      exKey? cost_params.night_rate "night_rate"
    else                                 -- Day: all other times
      exKey? cost_params.day_rate "day_rate"
  pure (t, r)

/-- Shallow embedding of `data_loader.get_time_of_use_rates`.  The Python
function populates a dict keyed by the step index in a loop; the dict is
modelled as the association list of (index, rate) pairs in insertion order. -/
def get_time_of_use_rates (data : InputData) (cost_params : CostParams) :
    Except BuildError (List (Nat × ℚ)) :=
  exMapM (touEntry data cost_params) (List.range data.time.val.length)

/-- The hour-band cascade as a pure function of the hour. -/
def touRateP (b n d : ℚ) (hour : Nat) : ℚ :=
  if 2 ≤ hour ∧ hour < 4 then b
  else if 23 ≤ hour ∨ hour < 8 then n
  else d

/-- Gurobi termination statuses distinguished by `solver.solve_milp`. -/
inductive GRBStatus
  | optimal
  | time_limit
  | other (code : Nat)
deriving DecidableEq

/-- The behaviour of the opaque external engine during one `solve_milp` call:
either some call inside the `try` block raises (a `gurobipy.GurobiError`, or
any other exception), or `model.optimize()` terminates with a status and a
solution count. -/
inductive EngineOutcome
  | gurobiError (msg : String)
  | otherError (msg : String)
  | finished (status : GRBStatus) (solCount : Nat)
deriving DecidableEq

/-- Shallow embedding of `solver.solve_milp`.  It is a total function, so it
never raises: both `except` arms return `False`.  In the `TIME_LIMIT` branch
with `SolCount = 0`, the Python code raises while formatting `model.objVal`
in the log line and the generic handler returns `False` — the same value the
explicit `SolCount > 0` test returns, so one equation covers both paths. -/
def solve_milp : EngineOutcome → Bool
  | .gurobiError _ => false
  | .otherError _ => false
  | .finished .optimal _ => true
  | .finished .time_limit n => decide (0 < n)
  | .finished (.other _) _ => false

/-- The per-variable optimal values (`.X` attributes) the engine reports for
a solved model. -/
structure SolvedVars where
  P_solar_household : Nat → ℚ
  P_solar_battery : Nat → ℚ
  P_solar_grid : Nat → ℚ
  P_battery_household : Nat → ℚ
  P_grid_battery : Nat → ℚ
  P_grid_household : Nat → ℚ
  SE : Nat → ℚ
  BC : Nat → ℚ
  BD : Nat → ℚ
  GF : Nat → ℚ

/-- The results dict built by `solver.extract_results`.  The three input
series are assigned directly from `data` (reference copies, see `PyList`);
the per-variable series are freshly built lists. -/
structure Results where
  time : PyList Timestamp
  solar_production : PyList ℚ
  load_demand : PyList ℚ
  P_solar_household : List ℚ
  P_solar_battery : List ℚ
  P_solar_grid : List ℚ
  P_battery_household : List ℚ
  P_grid_battery : List ℚ
  P_grid_household : List ℚ
  SE : List ℚ
  SoC : List ℚ
  BC : List ℚ
  BD : List ℚ
  GF : List ℚ
  total_cost : ℚ

/-- Shallow embedding of `solver.extract_results`.  `objVal` is the
objective value the engine reports (`model.objVal`); the `SoC` comprehension
reads `battery_params['capacity_kwh']` at every element, which is the only
read that can raise. -/
def extract_results (objVal : ℚ) (vars_dict : SolvedVars) (data : InputData)
    (battery_params : BatteryParams) : Except BuildError Results := do
  let time_steps := List.range data.time.val.length
  let soc ← exMapM (fun t => do
    let cap ← exKey? battery_params.capacity_kwh "capacity_kwh"
    pure (vars_dict.SE t / cap * 100)) time_steps
  pure
    { time := data.time
      solar_production := data.solar_production
      load_demand := data.load_demand
      P_solar_household := time_steps.map vars_dict.P_solar_household
      P_solar_battery := time_steps.map vars_dict.P_solar_battery
      P_solar_grid := time_steps.map vars_dict.P_solar_grid
      P_battery_household := time_steps.map vars_dict.P_battery_household
      P_grid_battery := time_steps.map vars_dict.P_grid_battery
      P_grid_household := time_steps.map vars_dict.P_grid_household
      SE := time_steps.map vars_dict.SE
      SoC := soc
      BC := time_steps.map vars_dict.BC
      BD := time_steps.map vars_dict.BD
      GF := time_steps.map vars_dict.GF
      total_cost := objVal }

/-- The solve/extract dispatch of `main.main` (lines 59–75): results are
extracted exactly when `solve_milp` reports success; on failure no result
set is produced. -/
def main_solve_and_extract (outcome : EngineOutcome) (objVal : ℚ)
    (vars_dict : SolvedVars) (data : InputData)
    (battery_params : BatteryParams) : Except BuildError (Option Results) :=
  if solve_milp outcome then do
    let r ← extract_results objVal vars_dict data battery_params
    pure (some r)
  else
    pure none

/-- Whether an `Except` computation finished without raising. -/
def exceptIsOk {ε α : Type} : Except ε α → Bool
  | .ok _ => true
  | .error _ => false

/-- The input data, battery configuration, cost configuration and buy-rate
dict are all present and consistent: every configuration key that
`create_milp_model` can read exists, every step has a buy rate, and the two
power series are at least as long as the time series. -/
abbrev ParamsGiven (data : InputData) (bp : BatteryParams) (cp : CostParams)
    (br : List (Nat × ℚ)) (isoc cap ce de ms hs mcr mdr sp : ℚ)
    (brv : Nat → ℚ) : Prop :=
  bp.initial_soc = some isoc ∧ bp.capacity_kwh = some cap ∧
  bp.charge_efficiency = some ce ∧ bp.discharge_efficiency = some de ∧
  bp.min_soc = some ms ∧ bp.max_soc = some hs ∧
  bp.max_charge_rate = some mcr ∧ bp.max_discharge_rate = some mdr ∧
  cp.sell_price = some sp ∧
  (∀ t < data.time.val.length, br.lookup t = some (brv t)) ∧
  data.time.val.length ≤ data.solar_production.val.length ∧
  data.time.val.length ≤ data.load_demand.val.length

/-! ### Helper lemmas -/

theorem exBind_ok {ε α β : Type} (a : α) (f : α → Except ε β) :
    (Except.ok a : Except ε α) >>= f = f a := rfl

theorem exBind_error {ε α β : Type} (e : ε) (f : α → Except ε β) :
    (Except.error e : Except ε α) >>= f = .error e := rfl

theorem exMap_ok {ε α β : Type} (g : α → β) (a : α) :
    g <$> (Except.ok a : Except ε α) = .ok (g a) := rfl

theorem exMap_error {ε α β : Type} (g : α → β) (e : ε) :
    g <$> (Except.error e : Except ε α) = .error e := rfl

theorem exPure_eq_ok {ε α : Type} (a : α) :
    (pure a : Except ε α) = .ok a := rfl

theorem exMapM_ok_of_forall {α : Type} (f : Nat → Except BuildError α)
    (g : Nat → α) (l : List Nat) (h : ∀ t ∈ l, f t = .ok (g t)) :
    exMapM f l = .ok (l.map g) := by
  induction l with
  | nil => rfl
  | cons a as ih =>
    have ha := h a (List.mem_cons_self a as)
    have has := ih (fun t ht => h t (List.mem_cons_of_mem a ht))
    simp [exMapM, ha, has, exBind_ok, exMap_ok, exPure_eq_ok]

theorem exMapM_ok_forall {α : Type} (f : Nat → Except BuildError α)
    (l : List Nat) (bs : List α) (h : exMapM f l = .ok bs) :
    ∀ t ∈ l, ∃ b, f t = .ok b := by
  induction l generalizing bs with
  | nil => intro t ht; cases ht
  | cons a as ih =>
    intro t ht
    rw [exMapM] at h
    cases hfa : f a with
    | error e =>
      rw [hfa, exBind_error] at h
      simp at h
    | ok b =>
      rw [hfa, exBind_ok] at h
      cases hrest : exMapM f as with
      | error e =>
        rw [hrest] at h
        simp [exMap_error, exMap_ok, exBind_ok, exBind_error, exPure_eq_ok] at h
      | ok bs' =>
        rcases List.mem_cons.mp ht with rfl | hmem
        · exact ⟨b, hfa⟩
        · exact ih bs' hrest t hmem

theorem eval_foldl_add (x : Var → ℚ) (l : List LinExpr) (e : LinExpr) :
    (l.foldl LinExpr.add e).eval x = e.eval x + (l.map (LinExpr.eval x)).sum := by
  induction l generalizing e with
  | nil => simp
  | cons a as ih =>
    rw [List.foldl_cons, ih (e.add a)]
    simp [LinExpr.eval]
    ring

theorem lookup_map_pair {β : Type} (f : Nat → β) (l : List Nat) (t : Nat)
    (ht : t ∈ l) : (l.map (fun i => (i, f i))).lookup t = some (f t) := by
  induction l with
  | nil => cases ht
  | cons a as ih =>
    by_cases hta : t = a
    · subst hta; simp [List.lookup]
    · have hba : (t == a) = false := beq_eq_false_iff_ne.mpr hta
      rcases List.mem_cons.mp ht with rfl | hmem
      · exact absurd rfl hta
      · simpa [List.lookup, hba] using ih hmem

theorem exKey?_some (x : ℚ) (k : String) : exKey? (some x) k = .ok x := rfl

theorem getElem?_lt_getD {α : Type} (l : List α) (t : Nat) (d : α)
    (h : t < l.length) : l[t]? = some (l.getD t d) := by
  induction l generalizing t with
  | nil => simp at h
  | cons a as ih =>
    cases t with
    | zero => simp [List.getD]
    | succ n =>
      have hn : n < as.length := Nat.lt_of_succ_lt_succ h
      simpa [List.getD] using ih n hn

theorem pyMax_ok (l : List ℚ) (h : l ≠ []) : pyMax l = .ok (listMax l) := by
  cases l with
  | nil => exact absurd rfl h
  | cons a as => rfl

/-- Bridging theorem: when every configuration key is present, every step has
a buy rate, and the power series cover the horizon, `create_milp_model`
raises nothing and returns exactly `buildModel`. -/
theorem create_milp_model_ok (data : InputData) (bp : BatteryParams)
    (cp : CostParams) (br : List (Nat × ℚ)) (isoc cap ce de ms hs mcr mdr sp : ℚ)
    (brv : Nat → ℚ)
    (h : ParamsGiven data bp cp br isoc cap ce de ms hs mcr mdr sp brv) :
    create_milp_model data bp cp br =
      .ok (buildModel data brv isoc cap ce de ms hs mcr mdr sp) := by
  obtain ⟨h1, h2, h3, h4, h5, h6, h7, h8, h9, hbr, hsl, hll⟩ := h
  have hmem : ∀ t ∈ List.range data.time.val.length, t < data.time.val.length :=
    fun t ht => List.mem_range.mp ht
  have hobj : ∀ t ∈ List.range data.time.val.length,
      objTerm cp br t = .ok (objTermP brv sp t) := by
    intro t ht
    simp only [objTerm, objTermP, hbr t (hmem t ht), h9, exKey?_some,
      exBind_ok, exMap_ok, exPure_eq_ok]
  have hsolar : ∀ t ∈ List.range data.time.val.length,
      solarBalanceC data t = .ok [Constr.mk ("solar_balance_" ++ toString t)
        (.add (.add (.var (.P_solar_household t)) (.var (.P_solar_battery t)))
          (.var (.P_solar_grid t))) .eq
        (.const (data.solar_production.val.getD t 0))] := by
    intro t ht
    have hidx := getElem?_lt_getD data.solar_production.val t 0
      (Nat.lt_of_lt_of_le (hmem t ht) hsl)
    simp only [solarBalanceC, exIdx?, List.get?_eq_getElem?, hidx,
      exBind_ok, exMap_ok, exPure_eq_ok]
  have hload : ∀ t ∈ List.range data.time.val.length,
      loadBalanceC data t = .ok [Constr.mk ("load_balance_" ++ toString t)
        (.add (.add (.var (.P_solar_household t)) (.var (.P_battery_household t)))
          (.var (.P_grid_household t))) .eq
        (.const (data.load_demand.val.getD t 0))] := by
    intro t ht
    have hidx := getElem?_lt_getD data.load_demand.val t 0
      (Nat.lt_of_lt_of_le (hmem t ht) hll)
    simp only [loadBalanceC, exIdx?, List.get?_eq_getElem?, hidx,
      exBind_ok, exMap_ok, exPure_eq_ok]
  have hdyn : ∀ t ∈ List.range data.time.val.length,
      batteryDynamicsC bp t = .ok (batteryDynamicsP isoc cap ce de t) := by
    intro t _
    by_cases ht0 : t = 0 <;>
      simp only [batteryDynamicsC, batteryDynamicsP, ht0, if_true, if_false,
        reduceIte, h1, h2, h3, h4, exKey?_some, exBind_ok, exMap_ok, exPure_eq_ok]
  have hsoc : ∀ t ∈ List.range data.time.val.length,
      socBoundsC bp t = .ok [Constr.mk ("soc_min_" ++ toString t)
        (.var (.SE t)) .ge (.const (ms * cap)),
        Constr.mk ("soc_max_" ++ toString t) (.var (.SE t)) .le
          (.const (hs * cap))] := by
    intro t _
    simp only [socBoundsC, h2, h5, h6, exKey?_some, exBind_ok, exMap_ok, exPure_eq_ok]
  have hcharge : ∀ t ∈ List.range data.time.val.length,
      chargeLimitC bp t = .ok [Constr.mk ("charge_limit_" ++ toString t)
        (.add (.var (.P_solar_battery t)) (.var (.P_grid_battery t))) .le
        (.const mcr)] := by
    intro t _
    simp only [chargeLimitC, h7, exKey?_some, exBind_ok, exMap_ok, exPure_eq_ok]
  have hdischarge : ∀ t ∈ List.range data.time.val.length,
      dischargeLimitC bp t = .ok [Constr.mk ("discharge_limit_" ++ toString t)
        (.var (.P_battery_household t)) .le (.const mdr)] := by
    intro t _
    simp only [dischargeLimitC, h8, exKey?_some, exBind_ok, exMap_ok, exPure_eq_ok]
  have hbin : ∀ t ∈ List.range data.time.val.length,
      binaryLinkC bp t = .ok (binaryLinkP mcr mdr t) := by
    intro t _
    simp only [binaryLinkC, binaryLinkP, h7, h8, exKey?_some, exBind_ok,
      exMap_ok, exPure_eq_ok]
  have hexcl : ∀ t ∈ List.range data.time.val.length,
      noSimultaneousC t = .ok (noSimultaneousP t) :=
    fun t _ => rfl
  have hgrid : ∀ t ∈ List.range data.time.val.length,
      gridFlowC data bp t = .ok (gridFlowP data mcr t) := by
    intro t ht
    have hpos : 0 < data.time.val.length :=
      Nat.lt_of_le_of_lt (Nat.zero_le t) (hmem t ht)
    have hlne : data.load_demand.val ≠ [] :=
      List.ne_nil_of_length_pos (Nat.lt_of_lt_of_le hpos hll)
    have hsne : data.solar_production.val ≠ [] :=
      List.ne_nil_of_length_pos (Nat.lt_of_lt_of_le hpos hsl)
    simp only [gridFlowC, gridFlowP, h7, exKey?_some, pyMax_ok _ hlne,
      pyMax_ok _ hsne, exBind_ok, exMap_ok, exPure_eq_ok]
  unfold create_milp_model
  dsimp only
  rw [exMapM_ok_of_forall _ _ _ hobj, exMapM_ok_of_forall _ _ _ hsolar,
    exMapM_ok_of_forall _ _ _ hload, exMapM_ok_of_forall _ _ _ hdyn,
    exMapM_ok_of_forall _ _ _ hsoc, exMapM_ok_of_forall _ _ _ hcharge,
    exMapM_ok_of_forall _ _ _ hdischarge, exMapM_ok_of_forall _ _ _ hbin,
    exMapM_ok_of_forall _ _ _ hexcl, exMapM_ok_of_forall _ _ _ hgrid]
  rfl

theorem mem_flatten_map_range {β : Type} (g : Nat → List β) (T t : Nat)
    (ht : t < T) (b : β) (hb : b ∈ g t) :
    b ∈ ((List.range T).map g).flatten := by
  rw [List.mem_flatten]
  exact ⟨g t, List.mem_map_of_mem g (List.mem_range.mpr ht), hb⟩

/-- The battery-dynamics constraint of step `t` is in the built model. -/
theorem batteryDynamicsP_mem (data : InputData) (brv : Nat → ℚ)
    (isoc cap ce de ms hs mcr mdr sp : ℚ) (t : Nat)
    (ht : t < data.time.val.length) :
    (Constr.mk ("battery_dynamics_" ++ toString t) (.var (.SE t)) .eq
      (.sub (.add (if t = 0 then LinExpr.const (isoc * cap)
          else LinExpr.var (.SE (t - 1)))
        (.mulc (.mulc (.add (.var (.P_solar_battery t)) (.var (.P_grid_battery t)))
          conversion_factor) ce))
        (.divc (.mulc (.var (.P_battery_household t)) conversion_factor) de))) ∈
      (buildModel data brv isoc cap ce de ms hs mcr mdr sp).constrs := by
  have hmemf := mem_flatten_map_range (batteryDynamicsP isoc cap ce de)
    data.time.val.length t ht
    (Constr.mk ("battery_dynamics_" ++ toString t) (.var (.SE t)) .eq
      (.sub (.add (if t = 0 then LinExpr.const (isoc * cap)
          else LinExpr.var (.SE (t - 1)))
        (.mulc (.mulc (.add (.var (.P_solar_battery t)) (.var (.P_grid_battery t)))
          conversion_factor) ce))
        (.divc (.mulc (.var (.P_battery_household t)) conversion_factor) de)))
    (by simp [batteryDynamicsP])
  simp [buildModel, List.mem_append, hmemf]

/-! ### Concrete inputs used by the witnesses -/

/-- A two-step input series (hours 10 and 3). -/
def dataW : InputData :=
  { time := ⟨0, [⟨10⟩, ⟨3⟩]⟩
    solar_production := ⟨1, [1500, 200]⟩
    load_demand := ⟨2, [1000, 400]⟩ }

/-- The battery parameters of `main.py` (site 1, two B4850 batteries). -/
def bpW : BatteryParams :=
  { capacity_kwh := some (48/10), min_soc := some (11/100), max_soc := some 1,
    initial_soc := some (22/100), charge_efficiency := some (95/100),
    discharge_efficiency := some (95/100), max_charge_rate := some 2780,
    max_discharge_rate := some 2370 }

/-- The cost parameters of `main.py` (Electric Ireland tariff). -/
def cpW : CostParams :=
  { day_rate := some (3634/10000), night_rate := some (1792/10000),
    boost_rate := some (1052/10000), sell_price := some (195/1000) }

/-- Buy-rate dict matching `dataW` (hour 10 is day, hour 3 is boost). -/
def brW : List (Nat × ℚ) := [(0, 3634/10000), (1, 1052/10000)]

/-- The same buy rates as a function. -/
def brvW : Nat → ℚ := fun t => if t = 0 then 3634/10000 else 1052/10000

/-- The concrete witness inputs satisfy `ParamsGiven`. -/
theorem paramsGivenW : ParamsGiven dataW bpW cpW brW (22/100) (48/10) (95/100)
    (95/100) (11/100) 1 2780 2370 (195/1000) brvW := by
  refine ⟨rfl, rfl, rfl, rfl, rfl, rfl, rfl, rfl, rfl, ?_, by decide, by decide⟩
  intro t ht
  have ht2 : t < 2 := ht
  interval_cases t <;> rfl

/-! ### Claims -/

/-- Claim C1. For every time step `t`, the model built by `create_milp_model`
contains the battery-dynamics equality constraint
`SE[0] = initial_soc * capacity + (P_solar_battery[0] + P_grid_battery[0]) * c * charge_efficiency - P_battery_household[0] * c / discharge_efficiency`,
and for `t > 0` the same with `SE[t-1]` in place of the initial term, where
`c = (5/60)/1000` (`conversion_factor`). -/
theorem battery_dynamics_constraints (data : InputData) (bp : BatteryParams)
    (cp : CostParams) (br : List (Nat × ℚ))
    (isoc cap ce de ms hs mcr mdr sp : ℚ) (brv : Nat → ℚ)
    (h : ParamsGiven data bp cp br isoc cap ce de ms hs mcr mdr sp brv) :
    ∃ m, create_milp_model data bp cp br = .ok m ∧
      ∀ t < data.time.val.length, ∃ c ∈ m.constrs,
        c.name = "battery_dynamics_" ++ toString t ∧
        ∀ x : Var → ℚ, constrSat x c ↔
          x (.SE t) = (if t = 0 then isoc * cap else x (.SE (t - 1))) +
            (x (.P_solar_battery t) + x (.P_grid_battery t)) *
              conversion_factor * ce -
            x (.P_battery_household t) * conversion_factor / de := by
  refine ⟨_, create_milp_model_ok data bp cp br isoc cap ce de ms hs mcr mdr sp
    brv h, ?_⟩
  intro t ht
  refine ⟨_, batteryDynamicsP_mem data brv isoc cap ce de ms hs mcr mdr sp t ht,
    ?_, ?_⟩
  · rfl
  · intro x
    by_cases ht0 : t = 0 <;> simp [constrSat, LinExpr.eval, ht0]

theorem battery_dynamics_constraints_witness :
    ParamsGiven dataW bpW cpW brW (22/100) (48/10) (95/100) (95/100) (11/100) 1
      2780 2370 (195/1000) brvW ∧
    (∃ m, create_milp_model dataW bpW cpW brW = .ok m ∧
      ∀ t < dataW.time.val.length, ∃ c ∈ m.constrs,
        c.name = "battery_dynamics_" ++ toString t ∧
        ∀ x : Var → ℚ, constrSat x c ↔
          x (.SE t) = (if t = 0 then (22/100 : ℚ) * (48/10) else x (.SE (t - 1))) +
            (x (.P_solar_battery t) + x (.P_grid_battery t)) *
              conversion_factor * (95/100) -
            x (.P_battery_household t) * conversion_factor / (95/100)) :=
  ⟨paramsGivenW, battery_dynamics_constraints dataW bpW cpW brW (22/100) (48/10)
    (95/100) (95/100) (11/100) 1 2780 2370 (195/1000) brvW paramsGivenW⟩

/-- Claim C2. The objective set by `create_milp_model` is minimized and equals
the sum over every time step `t` of
`(P_grid_household[t] + P_grid_battery[t]) * c * buy_rate[t] - P_solar_grid[t] * c * sell_price`,
with the same conversion factor `c = (5/60)/1000` applied uniformly to every
rate-multiplied flow term. -/
theorem objective_cost_sum (data : InputData) (bp : BatteryParams)
    (cp : CostParams) (br : List (Nat × ℚ))
    (isoc cap ce de ms hs mcr mdr sp : ℚ) (brv : Nat → ℚ)
    (h : ParamsGiven data bp cp br isoc cap ce de ms hs mcr mdr sp brv) :
    ∃ m, create_milp_model data bp cp br = .ok m ∧
      m.objSense = .minimize ∧
      ∀ x : Var → ℚ, m.objective.eval x =
        ((List.range data.time.val.length).map (fun t =>
          (x (.P_grid_household t) + x (.P_grid_battery t)) *
            conversion_factor * brv t -
          x (.P_solar_grid t) * conversion_factor * sp)).sum := by
  refine ⟨_, create_milp_model_ok data bp cp br isoc cap ce de ms hs mcr mdr sp
    brv h, rfl, ?_⟩
  intro x
  show ((((List.range data.time.val.length).map (objTermP brv sp)).foldl
    LinExpr.add (.const 0)).eval x) = _
  rw [eval_foldl_add]
  simp only [LinExpr.eval, zero_add, List.map_map, Function.comp_def, objTermP]

theorem objective_cost_sum_witness :
    ParamsGiven dataW bpW cpW brW (22/100) (48/10) (95/100) (95/100) (11/100) 1
      2780 2370 (195/1000) brvW ∧
    (∃ m, create_milp_model dataW bpW cpW brW = .ok m ∧
      m.objSense = .minimize ∧
      ∀ x : Var → ℚ, m.objective.eval x =
        ((List.range dataW.time.val.length).map (fun t =>
          (x (.P_grid_household t) + x (.P_grid_battery t)) *
            conversion_factor * brvW t -
          x (.P_solar_grid t) * conversion_factor * (195/1000))).sum) :=
  ⟨paramsGivenW, objective_cost_sum dataW bpW cpW brW (22/100) (48/10)
    (95/100) (95/100) (11/100) 1 2780 2370 (195/1000) brvW paramsGivenW⟩

/-- The `grid_flow_from` constraint of step `t` is in the built model. -/
theorem gridFlowFrom_mem (data : InputData) (brv : Nat → ℚ)
    (isoc cap ce de ms hs mcr mdr sp : ℚ) (t : Nat)
    (ht : t < data.time.val.length) :
    (Constr.mk ("grid_flow_from_" ++ toString t)
      (.add (.var (.P_grid_household t)) (.var (.P_grid_battery t))) .le
      (.mulc (.var (.GF t)) (mcr + listMax data.load_demand.val))) ∈
      (buildModel data brv isoc cap ce de ms hs mcr mdr sp).constrs := by
  have hmemf := mem_flatten_map_range (gridFlowP data mcr)
    data.time.val.length t ht
    (Constr.mk ("grid_flow_from_" ++ toString t)
      (.add (.var (.P_grid_household t)) (.var (.P_grid_battery t))) .le
      (.mulc (.var (.GF t)) (mcr + listMax data.load_demand.val)))
    (by simp [gridFlowP])
  simp [buildModel, List.mem_append, hmemf]

/-- The `grid_flow_to` constraint of step `t` is in the built model. -/
theorem gridFlowTo_mem (data : InputData) (brv : Nat → ℚ)
    (isoc cap ce de ms hs mcr mdr sp : ℚ) (t : Nat)
    (ht : t < data.time.val.length) :
    (Constr.mk ("grid_flow_to_" ++ toString t)
      (.var (.P_solar_grid t)) .le
      (.mulc (.sub (.const 1) (.var (.GF t)))
        (listMax data.solar_production.val))) ∈
      (buildModel data brv isoc cap ce de ms hs mcr mdr sp).constrs := by
  have hmemf := mem_flatten_map_range (gridFlowP data mcr)
    data.time.val.length t ht
    (Constr.mk ("grid_flow_to_" ++ toString t)
      (.var (.P_solar_grid t)) .le
      (.mulc (.sub (.const 1) (.var (.GF t)))
        (listMax data.solar_production.val)))
    (by simp [gridFlowP])
  simp [buildModel, List.mem_append, hmemf]

/-- The `charge_binary` constraint of step `t` is in the built model. -/
theorem chargeBinary_mem (data : InputData) (brv : Nat → ℚ)
    (isoc cap ce de ms hs mcr mdr sp : ℚ) (t : Nat)
    (ht : t < data.time.val.length) :
    (Constr.mk ("charge_binary_" ++ toString t)
      (.add (.var (.P_solar_battery t)) (.var (.P_grid_battery t))) .le
      (.mulc (.var (.BC t)) mcr)) ∈
      (buildModel data brv isoc cap ce de ms hs mcr mdr sp).constrs := by
  have hmemf := mem_flatten_map_range (binaryLinkP mcr mdr)
    data.time.val.length t ht
    (Constr.mk ("charge_binary_" ++ toString t)
      (.add (.var (.P_solar_battery t)) (.var (.P_grid_battery t))) .le
      (.mulc (.var (.BC t)) mcr))
    (by simp [binaryLinkP])
  simp [buildModel, List.mem_append, hmemf]

/-- The `discharge_binary` constraint of step `t` is in the built model. -/
theorem dischargeBinary_mem (data : InputData) (brv : Nat → ℚ)
    (isoc cap ce de ms hs mcr mdr sp : ℚ) (t : Nat)
    (ht : t < data.time.val.length) :
    (Constr.mk ("discharge_binary_" ++ toString t)
      (.var (.P_battery_household t)) .le (.mulc (.var (.BD t)) mdr)) ∈
      (buildModel data brv isoc cap ce de ms hs mcr mdr sp).constrs := by
  have hmemf := mem_flatten_map_range (binaryLinkP mcr mdr)
    data.time.val.length t ht
    (Constr.mk ("discharge_binary_" ++ toString t)
      (.var (.P_battery_household t)) .le (.mulc (.var (.BD t)) mdr))
    (by simp [binaryLinkP])
  simp [buildModel, List.mem_append, hmemf]

/-- The `no_simultaneous` constraint of step `t` is in the built model. -/
theorem noSimultaneous_mem (data : InputData) (brv : Nat → ℚ)
    (isoc cap ce de ms hs mcr mdr sp : ℚ) (t : Nat)
    (ht : t < data.time.val.length) :
    (Constr.mk ("no_simultaneous_" ++ toString t)
      (.add (.var (.BC t)) (.var (.BD t))) .le (.const 1)) ∈
      (buildModel data brv isoc cap ce de ms hs mcr mdr sp).constrs := by
  have hmemf := mem_flatten_map_range noSimultaneousP
    data.time.val.length t ht
    (Constr.mk ("no_simultaneous_" ++ toString t)
      (.add (.var (.BC t)) (.var (.BD t))) .le (.const 1))
    (by simp [noSimultaneousP])
  simp [buildModel, List.mem_append, hmemf]

/-- Variable `BC[t]` is among the model's binary variables. -/
theorem BC_mem_binaryList (data : InputData) (brv : Nat → ℚ)
    (isoc cap ce de ms hs mcr mdr sp : ℚ) (t : Nat)
    (ht : t < data.time.val.length) :
    Var.BC t ∈ (buildModel data brv isoc cap ce de ms hs mcr mdr sp).binaryList := by
  simp only [buildModel, allBinaries, List.mem_append, List.mem_map,
    List.mem_range]
  exact Or.inl (Or.inl ⟨t, ht, rfl⟩)

/-- Variable `BD[t]` is among the model's binary variables. -/
theorem BD_mem_binaryList (data : InputData) (brv : Nat → ℚ)
    (isoc cap ce de ms hs mcr mdr sp : ℚ) (t : Nat)
    (ht : t < data.time.val.length) :
    Var.BD t ∈ (buildModel data brv isoc cap ce de ms hs mcr mdr sp).binaryList := by
  simp only [buildModel, allBinaries, List.mem_append, List.mem_map,
    List.mem_range]
  exact Or.inl (Or.inr ⟨t, ht, rfl⟩)

/-- Claim C3. For every time step `t`, the model contains the grid-direction
big-M constraints
`P_grid_household[t] + P_grid_battery[t] <= GF[t] * (max_charge_rate + max(load_demand))`
and `P_solar_grid[t] <= (1 - GF[t]) * max(solar_production)`, with both big-M
coefficients computed from the run's input data (horizon-wide maxima, here
stated with series lengths equal to the horizon), not hardcoded constants. -/
theorem grid_direction_bigM (data : InputData) (bp : BatteryParams)
    (cp : CostParams) (br : List (Nat × ℚ))
    (isoc cap ce de ms hs mcr mdr sp : ℚ) (brv : Nat → ℚ)
    (h : ParamsGiven data bp cp br isoc cap ce de ms hs mcr mdr sp brv)
    (hsl : data.solar_production.val.length = data.time.val.length)
    (hll : data.load_demand.val.length = data.time.val.length) :
    ∃ m, create_milp_model data bp cp br = .ok m ∧
      ∀ t < data.time.val.length,
        (Constr.mk ("grid_flow_from_" ++ toString t)
          (.add (.var (.P_grid_household t)) (.var (.P_grid_battery t))) .le
          (.mulc (.var (.GF t)) (mcr + listMax data.load_demand.val))) ∈
          m.constrs ∧
        (Constr.mk ("grid_flow_to_" ++ toString t)
          (.var (.P_solar_grid t)) .le
          (.mulc (.sub (.const 1) (.var (.GF t)))
            (listMax data.solar_production.val))) ∈ m.constrs ∧
        (∀ x : Var → ℚ, constrSat x (Constr.mk ("grid_flow_from_" ++ toString t)
          (.add (.var (.P_grid_household t)) (.var (.P_grid_battery t))) .le
          (.mulc (.var (.GF t)) (mcr + listMax data.load_demand.val))) ↔
          x (.P_grid_household t) + x (.P_grid_battery t) ≤
            x (.GF t) * (mcr + listMax data.load_demand.val)) ∧
        (∀ x : Var → ℚ, constrSat x (Constr.mk ("grid_flow_to_" ++ toString t)
          (.var (.P_solar_grid t)) .le
          (.mulc (.sub (.const 1) (.var (.GF t)))
            (listMax data.solar_production.val))) ↔
          x (.P_solar_grid t) ≤
            (1 - x (.GF t)) * listMax data.solar_production.val) := by
  refine ⟨_, create_milp_model_ok data bp cp br isoc cap ce de ms hs mcr mdr sp
    brv h, ?_⟩
  intro t ht
  refine ⟨gridFlowFrom_mem data brv isoc cap ce de ms hs mcr mdr sp t ht,
    gridFlowTo_mem data brv isoc cap ce de ms hs mcr mdr sp t ht, ?_, ?_⟩
  · intro x
    simp [constrSat, LinExpr.eval]
  · intro x
    simp [constrSat, LinExpr.eval]

theorem grid_direction_bigM_witness :
    ParamsGiven dataW bpW cpW brW (22/100) (48/10) (95/100) (95/100) (11/100) 1
      2780 2370 (195/1000) brvW ∧
    (∃ m, create_milp_model dataW bpW cpW brW = .ok m ∧
      ∀ t < dataW.time.val.length,
        (Constr.mk ("grid_flow_from_" ++ toString t)
          (.add (.var (.P_grid_household t)) (.var (.P_grid_battery t))) .le
          (.mulc (.var (.GF t)) (2780 + listMax dataW.load_demand.val))) ∈
          m.constrs ∧
        (Constr.mk ("grid_flow_to_" ++ toString t)
          (.var (.P_solar_grid t)) .le
          (.mulc (.sub (.const 1) (.var (.GF t)))
            (listMax dataW.solar_production.val))) ∈ m.constrs ∧
        (∀ x : Var → ℚ, constrSat x (Constr.mk ("grid_flow_from_" ++ toString t)
          (.add (.var (.P_grid_household t)) (.var (.P_grid_battery t))) .le
          (.mulc (.var (.GF t)) (2780 + listMax dataW.load_demand.val))) ↔
          x (.P_grid_household t) + x (.P_grid_battery t) ≤
            x (.GF t) * (2780 + listMax dataW.load_demand.val)) ∧
        (∀ x : Var → ℚ, constrSat x (Constr.mk ("grid_flow_to_" ++ toString t)
          (.var (.P_solar_grid t)) .le
          (.mulc (.sub (.const 1) (.var (.GF t)))
            (listMax dataW.solar_production.val))) ↔
          x (.P_solar_grid t) ≤
            (1 - x (.GF t)) * listMax dataW.solar_production.val)) :=
  ⟨paramsGivenW, grid_direction_bigM dataW bpW cpW brW (22/100) (48/10)
    (95/100) (95/100) (11/100) 1 2780 2370 (195/1000) brvW paramsGivenW
    rfl rfl⟩

/-- Claim C4. For every time step `t`, `BC[t]` and `BD[t]` are declared binary
and the model contains
`P_solar_battery[t] + P_grid_battery[t] <= BC[t] * max_charge_rate`,
`P_battery_household[t] <= BD[t] * max_discharge_rate` and
`BC[t] + BD[t] <= 1`; consequently in every feasible assignment at most one
of charging and discharging is active at each step. -/
theorem charge_discharge_exclusivity (data : InputData) (bp : BatteryParams)
    (cp : CostParams) (br : List (Nat × ℚ))
    (isoc cap ce de ms hs mcr mdr sp : ℚ) (brv : Nat → ℚ)
    (h : ParamsGiven data bp cp br isoc cap ce de ms hs mcr mdr sp brv) :
    ∃ m, create_milp_model data bp cp br = .ok m ∧
      (∀ t < data.time.val.length,
        Var.BC t ∈ m.binaryList ∧ Var.BD t ∈ m.binaryList ∧
        (Constr.mk ("charge_binary_" ++ toString t)
          (.add (.var (.P_solar_battery t)) (.var (.P_grid_battery t))) .le
          (.mulc (.var (.BC t)) mcr)) ∈ m.constrs ∧
        (Constr.mk ("discharge_binary_" ++ toString t)
          (.var (.P_battery_household t)) .le
          (.mulc (.var (.BD t)) mdr)) ∈ m.constrs ∧
        (Constr.mk ("no_simultaneous_" ++ toString t)
          (.add (.var (.BC t)) (.var (.BD t))) .le (.const 1)) ∈ m.constrs) ∧
      ∀ x : Var → ℚ, m.feasible x → ∀ t < data.time.val.length,
        ¬(0 < x (.P_solar_battery t) + x (.P_grid_battery t) ∧
          0 < x (.P_battery_household t)) := by
  refine ⟨_, create_milp_model_ok data bp cp br isoc cap ce de ms hs mcr mdr sp
    brv h, ?_, ?_⟩
  · intro t ht
    exact ⟨BC_mem_binaryList data brv isoc cap ce de ms hs mcr mdr sp t ht,
      BD_mem_binaryList data brv isoc cap ce de ms hs mcr mdr sp t ht,
      chargeBinary_mem data brv isoc cap ce de ms hs mcr mdr sp t ht,
      dischargeBinary_mem data brv isoc cap ce de ms hs mcr mdr sp t ht,
      noSimultaneous_mem data brv isoc cap ce de ms hs mcr mdr sp t ht⟩
  · intro x hfeas t ht hcd
    obtain ⟨hlb, hbin, hcon⟩ := hfeas
    obtain ⟨hch, hdis⟩ := hcd
    have h1 := hcon _ (chargeBinary_mem data brv isoc cap ce de ms hs mcr mdr sp t ht)
    have h2 := hcon _ (dischargeBinary_mem data brv isoc cap ce de ms hs mcr mdr sp t ht)
    have h3 := hcon _ (noSimultaneous_mem data brv isoc cap ce de ms hs mcr mdr sp t ht)
    have hBC := hbin _ (BC_mem_binaryList data brv isoc cap ce de ms hs mcr mdr sp t ht)
    have hBD := hbin _ (BD_mem_binaryList data brv isoc cap ce de ms hs mcr mdr sp t ht)
    simp only [constrSat, LinExpr.eval] at h1 h2 h3
    cases hBC with
    | inl h0 => rw [h0, zero_mul] at h1; linarith
    | inr hone =>
      cases hBD with
      | inl h0' => rw [h0', zero_mul] at h2; linarith
      | inr hone' => rw [hone, hone'] at h3; linarith

theorem charge_discharge_exclusivity_witness :
    ParamsGiven dataW bpW cpW brW (22/100) (48/10) (95/100) (95/100) (11/100) 1
      2780 2370 (195/1000) brvW ∧
    (∃ m, create_milp_model dataW bpW cpW brW = .ok m ∧
      (∀ t < dataW.time.val.length,
        Var.BC t ∈ m.binaryList ∧ Var.BD t ∈ m.binaryList ∧
        (Constr.mk ("charge_binary_" ++ toString t)
          (.add (.var (.P_solar_battery t)) (.var (.P_grid_battery t))) .le
          (.mulc (.var (.BC t)) 2780)) ∈ m.constrs ∧
        (Constr.mk ("discharge_binary_" ++ toString t)
          (.var (.P_battery_household t)) .le
          (.mulc (.var (.BD t)) 2370)) ∈ m.constrs ∧
        (Constr.mk ("no_simultaneous_" ++ toString t)
          (.add (.var (.BC t)) (.var (.BD t))) .le (.const 1)) ∈ m.constrs) ∧
      ∀ x : Var → ℚ, m.feasible x → ∀ t < dataW.time.val.length,
        ¬(0 < x (.P_solar_battery t) + x (.P_grid_battery t) ∧
          0 < x (.P_battery_household t))) :=
  ⟨paramsGivenW, charge_discharge_exclusivity dataW bpW cpW brW (22/100)
    (48/10) (95/100) (95/100) (11/100) 1 2780 2370 (195/1000) brvW
    paramsGivenW⟩

/-- Claim C5. For every timestamp sequence and rate table,
`get_time_of_use_rates` maps each step `t` to: the boost rate when the hour
`h` satisfies `2 <= h < 4`; otherwise the night rate when `h >= 23` or
`h < 8`; otherwise the day rate.  The boost band takes priority over the
overlapping night band, the function never fails, and every step index in
`[0, T)` receives exactly one rate (the dict lookup is a function). -/
theorem tou_rates_priority (data : InputData) (cp : CostParams) (b n d : ℚ)
    (hb : cp.boost_rate = some b) (hn : cp.night_rate = some n)
    (hd : cp.day_rate = some d) :
    ∃ rates, get_time_of_use_rates data cp = .ok rates ∧
      ∀ t, t < data.time.val.length →
        ∀ ts, data.time.val[t]? = some ts →
          ((2 ≤ ts.hour ∧ ts.hour < 4 → rates.lookup t = some b) ∧
           (¬(2 ≤ ts.hour ∧ ts.hour < 4) → (23 ≤ ts.hour ∨ ts.hour < 8) →
             rates.lookup t = some n) ∧
           (¬(2 ≤ ts.hour ∧ ts.hour < 4) → ¬(23 ≤ ts.hour ∨ ts.hour < 8) →
             rates.lookup t = some d)) := by
  have hbody : ∀ t ∈ List.range data.time.val.length,
      touEntry data cp t =
        .ok (t, touRateP b n d ((data.time.val.getD t ⟨0⟩).hour)) := by
    intro t ht
    have hidx := getElem?_lt_getD data.time.val t ⟨0⟩ (List.mem_range.mp ht)
    simp only [touEntry, exIdx?, List.get?_eq_getElem?, hidx, exBind_ok]
    by_cases h1 : 2 ≤ (data.time.val.getD t ⟨0⟩).hour ∧
        (data.time.val.getD t ⟨0⟩).hour < 4
    · simp only [touRateP, if_pos h1, hb, exKey?_some, exBind_ok,
        exPure_eq_ok]
    · by_cases h2 : 23 ≤ (data.time.val.getD t ⟨0⟩).hour ∨
          (data.time.val.getD t ⟨0⟩).hour < 8
      · simp only [touRateP, if_neg h1, if_pos h2, hn, exKey?_some,
          exBind_ok, exPure_eq_ok]
      · simp only [touRateP, if_neg h1, if_neg h2, hd, exKey?_some,
          exBind_ok, exPure_eq_ok]
  refine ⟨_, by
    rw [get_time_of_use_rates, exMapM_ok_of_forall _ _ _ hbody], ?_⟩
  intro t ht ts hts
  have hlk := lookup_map_pair
    (fun i => touRateP b n d ((data.time.val.getD i ⟨0⟩).hour))
    (List.range data.time.val.length) t (List.mem_range.mpr ht)
  refine ⟨?_, ?_, ?_⟩
  · intro h1
    simpa [touRateP, hts, if_pos h1] using hlk
  · intro h1 h2
    simpa [touRateP, hts, if_neg h1, if_pos h2] using hlk
  · intro h1 h2
    simpa [touRateP, hts, if_neg h1, if_neg h2] using hlk

theorem tou_rates_priority_witness :
    cpW.boost_rate = some (1052/10000) ∧ cpW.night_rate = some (1792/10000) ∧
    cpW.day_rate = some (3634/10000) ∧
    (∃ rates, get_time_of_use_rates dataW cpW = .ok rates ∧
      ∀ t, t < dataW.time.val.length →
        ∀ ts, dataW.time.val[t]? = some ts →
          ((2 ≤ ts.hour ∧ ts.hour < 4 → rates.lookup t = some (1052/10000)) ∧
           (¬(2 ≤ ts.hour ∧ ts.hour < 4) → (23 ≤ ts.hour ∨ ts.hour < 8) →
             rates.lookup t = some (1792/10000)) ∧
           (¬(2 ≤ ts.hour ∧ ts.hour < 4) → ¬(23 ≤ ts.hour ∨ ts.hour < 8) →
             rates.lookup t = some (3634/10000)))) :=
  ⟨rfl, rfl, rfl, tou_rates_priority dataW cpW (1052/10000) (1792/10000)
    (3634/10000) rfl rfl rfl⟩

/-- Claim C6. `solve_milp` returns a boolean and never raises (it is a total
function; both `except` arms return `False`): it returns `True` exactly when
the engine terminates proven optimal, or terminates at the time limit with
at least one feasible incumbent (`SolCount > 0`); it returns `False` for
time-limit-with-no-incumbent, for every other termination status
(infeasible, unbounded, numerically failed), and for any engine exception
(`GurobiError` or other), which are caught rather than propagated. -/
theorem solve_milp_status_iff (o : EngineOutcome) :
    solve_milp o = true ↔
      ((∃ n, o = .finished .optimal n) ∨
       (∃ n, o = .finished .time_limit n ∧ 0 < n)) := by
  cases o with
  | gurobiError msg => simp [solve_milp]
  | otherError msg => simp [solve_milp]
  | finished s n =>
    cases s with
    | optimal => simp [solve_milp]
    | time_limit => simp [solve_milp]
    | other code => simp [solve_milp]

/-- Evaluation of `extract_results` on a capacity-bearing configuration: the exact result
dict it builds. -/
theorem extract_results_ok (objVal : ℚ) (vd : SolvedVars) (data : InputData)
    (bp : BatteryParams) (cap : ℚ) (hcap : bp.capacity_kwh = some cap) :
    extract_results objVal vd data bp = .ok
      { time := data.time
        solar_production := data.solar_production
        load_demand := data.load_demand
        P_solar_household := (List.range data.time.val.length).map vd.P_solar_household
        P_solar_battery := (List.range data.time.val.length).map vd.P_solar_battery
        P_solar_grid := (List.range data.time.val.length).map vd.P_solar_grid
        P_battery_household := (List.range data.time.val.length).map vd.P_battery_household
        P_grid_battery := (List.range data.time.val.length).map vd.P_grid_battery
        P_grid_household := (List.range data.time.val.length).map vd.P_grid_household
        SE := (List.range data.time.val.length).map vd.SE
        SoC := (List.range data.time.val.length).map (fun t => vd.SE t / cap * 100)
        BC := (List.range data.time.val.length).map vd.BC
        BD := (List.range data.time.val.length).map vd.BD
        GF := (List.range data.time.val.length).map vd.GF
        total_cost := objVal } := by
  unfold extract_results
  dsimp only
  rw [exMapM_ok_of_forall _ (fun t => vd.SE t / cap * 100) _ (fun t _ => by
    simp only [hcap, exKey?_some, exBind_ok, exPure_eq_ok])]
  rfl

/-- Claim C8. `extract_results`, invoked only after `solve_milp` reports
success, produces a result set containing the input series plus, per step,
the solved value of every decision variable, the derived state of charge
`SoC[t] = SE[t] / capacity * 100`, and the scalar total cost equal to the
solver's objective value; on a failed solve `main` produces no result. -/
theorem results_contents (outcome : EngineOutcome) (objVal : ℚ)
    (vd : SolvedVars) (data : InputData) (bp : BatteryParams) (cap : ℚ)
    (hcap : bp.capacity_kwh = some cap) :
    (solve_milp outcome = false →
      main_solve_and_extract outcome objVal vd data bp = .ok none) ∧
    ∃ r, extract_results objVal vd data bp = .ok r ∧
      (solve_milp outcome = true →
        main_solve_and_extract outcome objVal vd data bp = .ok (some r)) ∧
      r.time = data.time ∧ r.solar_production = data.solar_production ∧
      r.load_demand = data.load_demand ∧
      r.P_solar_household = (List.range data.time.val.length).map vd.P_solar_household ∧
      r.P_solar_battery = (List.range data.time.val.length).map vd.P_solar_battery ∧
      r.P_solar_grid = (List.range data.time.val.length).map vd.P_solar_grid ∧
      r.P_battery_household = (List.range data.time.val.length).map vd.P_battery_household ∧
      r.P_grid_battery = (List.range data.time.val.length).map vd.P_grid_battery ∧
      r.P_grid_household = (List.range data.time.val.length).map vd.P_grid_household ∧
      r.SE = (List.range data.time.val.length).map vd.SE ∧
      r.SoC = (List.range data.time.val.length).map (fun t => vd.SE t / cap * 100) ∧
      r.BC = (List.range data.time.val.length).map vd.BC ∧
      r.BD = (List.range data.time.val.length).map vd.BD ∧
      r.GF = (List.range data.time.val.length).map vd.GF ∧
      r.total_cost = objVal := by
  constructor
  · intro hfail
    simp [main_solve_and_extract, hfail, exPure_eq_ok]
  · refine ⟨_, extract_results_ok objVal vd data bp cap hcap, ?_,
      rfl, rfl, rfl, rfl, rfl, rfl, rfl, rfl, rfl, rfl, rfl, rfl, rfl, rfl, rfl⟩
    intro hsucc
    simp [main_solve_and_extract, hsucc,
      extract_results_ok objVal vd data bp cap hcap]

/-- All-zero solved variable values, for the witnesses. -/
def vdW : SolvedVars :=
  { P_solar_household := fun _ => 0, P_solar_battery := fun _ => 0,
    P_solar_grid := fun _ => 0, P_battery_household := fun _ => 0,
    P_grid_battery := fun _ => 0, P_grid_household := fun _ => 0,
    SE := fun _ => 0, BC := fun _ => 0, BD := fun _ => 0, GF := fun _ => 0 }

theorem results_contents_witness :
    bpW.capacity_kwh = some (48/10) ∧
    ((solve_milp (.finished .optimal 1) = false →
      main_solve_and_extract (.finished .optimal 1) 7 vdW dataW bpW = .ok none) ∧
    ∃ r, extract_results 7 vdW dataW bpW = .ok r ∧
      (solve_milp (.finished .optimal 1) = true →
        main_solve_and_extract (.finished .optimal 1) 7 vdW dataW bpW =
          .ok (some r)) ∧
      r.time = dataW.time ∧ r.solar_production = dataW.solar_production ∧
      r.load_demand = dataW.load_demand ∧
      r.P_solar_household = (List.range dataW.time.val.length).map vdW.P_solar_household ∧
      r.P_solar_battery = (List.range dataW.time.val.length).map vdW.P_solar_battery ∧
      r.P_solar_grid = (List.range dataW.time.val.length).map vdW.P_solar_grid ∧
      r.P_battery_household = (List.range dataW.time.val.length).map vdW.P_battery_household ∧
      r.P_grid_battery = (List.range dataW.time.val.length).map vdW.P_grid_battery ∧
      r.P_grid_household = (List.range dataW.time.val.length).map vdW.P_grid_household ∧
      r.SE = (List.range dataW.time.val.length).map vdW.SE ∧
      r.SoC = (List.range dataW.time.val.length).map
        (fun t => vdW.SE t / (48/10) * 100) ∧
      r.BC = (List.range dataW.time.val.length).map vdW.BC ∧
      r.BD = (List.range dataW.time.val.length).map vdW.BD ∧
      r.GF = (List.range dataW.time.val.length).map vdW.GF ∧
      r.total_cost = 7) :=
  ⟨rfl, results_contents (.finished .optimal 1) 7 vdW dataW bpW (48/10) rfl⟩

/-- Claim C9. `create_milp_model` is deterministic: identical input series,
battery configuration, cost configuration and tariff mapping yield the very
same model — same variable set, same binary declarations, same constraint
set (hence identical feasible region) and same objective expression. -/
theorem builder_deterministic (d1 d2 : InputData) (bp1 bp2 : BatteryParams)
    (cp1 cp2 : CostParams) (br1 br2 : List (Nat × ℚ))
    (hd : d1 = d2) (hbp : bp1 = bp2) (hcp : cp1 = cp2) (hbr : br1 = br2) :
    create_milp_model d1 bp1 cp1 br1 = create_milp_model d2 bp2 cp2 br2 ∧
    (create_milp_model d1 bp1 cp1 br1).map Model.varList =
      (create_milp_model d2 bp2 cp2 br2).map Model.varList ∧
    (create_milp_model d1 bp1 cp1 br1).map Model.binaryList =
      (create_milp_model d2 bp2 cp2 br2).map Model.binaryList ∧
    (create_milp_model d1 bp1 cp1 br1).map Model.constrs =
      (create_milp_model d2 bp2 cp2 br2).map Model.constrs ∧
    (create_milp_model d1 bp1 cp1 br1).map Model.objective =
      (create_milp_model d2 bp2 cp2 br2).map Model.objective := by
  subst hd; subst hbp; subst hcp; subst hbr
  exact ⟨rfl, rfl, rfl, rfl, rfl⟩

theorem builder_deterministic_witness :
    create_milp_model dataW bpW cpW brW = create_milp_model dataW bpW cpW brW ∧
    (create_milp_model dataW bpW cpW brW).map Model.varList =
      (create_milp_model dataW bpW cpW brW).map Model.varList ∧
    (create_milp_model dataW bpW cpW brW).map Model.binaryList =
      (create_milp_model dataW bpW cpW brW).map Model.binaryList ∧
    (create_milp_model dataW bpW cpW brW).map Model.constrs =
      (create_milp_model dataW bpW cpW brW).map Model.constrs ∧
    (create_milp_model dataW bpW cpW brW).map Model.objective =
      (create_milp_model dataW bpW cpW brW).map Model.objective :=
  builder_deterministic dataW dataW bpW bpW cpW cpW brW brW rfl rfl rfl rfl

/-- Claim C10. `extract_results` copies no input data: the `time`,
`solar_production` and `load_demand` entries of the result set are the very
same list objects passed in through `data` — the same heap reference
(`PyList.ref`), not copies — so the result set shares storage with the
caller-owned input series. -/
theorem results_alias_inputs (objVal : ℚ) (vd : SolvedVars)
    (data : InputData) (bp : BatteryParams) (cap : ℚ)
    (hcap : bp.capacity_kwh = some cap) :
    ∃ r, extract_results objVal vd data bp = .ok r ∧
      r.time.ref = data.time.ref ∧
      r.solar_production.ref = data.solar_production.ref ∧
      r.load_demand.ref = data.load_demand.ref ∧
      r.time = data.time ∧ r.solar_production = data.solar_production ∧
      r.load_demand = data.load_demand :=
  ⟨_, extract_results_ok objVal vd data bp cap hcap,
    rfl, rfl, rfl, rfl, rfl, rfl⟩

theorem results_alias_inputs_witness :
    bpW.capacity_kwh = some (48/10) ∧
    (∃ r, extract_results 7 vdW dataW bpW = .ok r ∧
      r.time.ref = dataW.time.ref ∧
      r.solar_production.ref = dataW.solar_production.ref ∧
      r.load_demand.ref = dataW.load_demand.ref ∧
      r.time = dataW.time ∧ r.solar_production = dataW.solar_production ∧
      r.load_demand = dataW.load_demand) :=
  ⟨rfl, results_alias_inputs 7 vdW dataW bpW (48/10) rfl⟩

/-- Every read `create_milp_model` performs succeeds: each step has a buy
rate, every configuration key it reads is present, and the two power series
are at least as long as the time series (longer is accepted: only the first
`T` entries are indexed). -/
def wellFormedInput (data : InputData) (bp : BatteryParams) (cp : CostParams)
    (br : List (Nat × ℚ)) : Prop :=
  (∀ t < data.time.val.length, (br.lookup t).isSome = true) ∧
  cp.sell_price.isSome = true ∧
  data.time.val.length ≤ data.solar_production.val.length ∧
  data.time.val.length ≤ data.load_demand.val.length ∧
  bp.initial_soc.isSome = true ∧ bp.capacity_kwh.isSome = true ∧
  bp.charge_efficiency.isSome = true ∧ bp.discharge_efficiency.isSome = true ∧
  bp.min_soc.isSome = true ∧ bp.max_soc.isSome = true ∧
  bp.max_charge_rate.isSome = true ∧ bp.max_discharge_rate.isSome = true

theorem opt_eq_some_getD {o : Option ℚ} (h : o.isSome = true) (d : ℚ) :
    o = some (o.getD d) := by
  cases o with
  | none => simp at h
  | some v => rfl

/-- Success condition: `create_milp_model` succeeds exactly on an empty horizon or a
well-formed input. -/
theorem create_milp_model_ok_iff (data : InputData) (bp : BatteryParams)
    (cp : CostParams) (br : List (Nat × ℚ)) :
    (∃ m, create_milp_model data bp cp br = .ok m) ↔
      (data.time.val.length = 0 ∨ wellFormedInput data bp cp br) := by
  constructor
  · intro hex
    obtain ⟨m, hm⟩ := hex
    by_cases hT : data.time.val.length = 0
    · exact Or.inl hT
    right
    have hT0 : 0 ∈ List.range data.time.val.length :=
      List.mem_range.mpr (Nat.pos_of_ne_zero hT)
    rw [create_milp_model] at hm
    dsimp only at hm
    cases hq1 : exMapM (objTerm cp br) (List.range data.time.val.length) with
    | error e => simp only [hq1, exBind_error] at hm; exact Except.noConfusion hm
    | ok v1 =>
    simp only [hq1, exBind_ok] at hm
    cases hq2 : exMapM (solarBalanceC data) (List.range data.time.val.length) with
    | error e => simp only [hq2, exBind_error] at hm; exact Except.noConfusion hm
    | ok v2 =>
    simp only [hq2, exBind_ok] at hm
    cases hq3 : exMapM (loadBalanceC data) (List.range data.time.val.length) with
    | error e => simp only [hq3, exBind_error] at hm; exact Except.noConfusion hm
    | ok v3 =>
    simp only [hq3, exBind_ok] at hm
    cases hq4 : exMapM (batteryDynamicsC bp) (List.range data.time.val.length) with
    | error e => simp only [hq4, exBind_error] at hm; exact Except.noConfusion hm
    | ok v4 =>
    simp only [hq4, exBind_ok] at hm
    cases hq5 : exMapM (socBoundsC bp) (List.range data.time.val.length) with
    | error e => simp only [hq5, exBind_error] at hm; exact Except.noConfusion hm
    | ok v5 =>
    simp only [hq5, exBind_ok] at hm
    cases hq6 : exMapM (chargeLimitC bp) (List.range data.time.val.length) with
    | error e => simp only [hq6, exBind_error] at hm; exact Except.noConfusion hm
    | ok v6 =>
    simp only [hq6, exBind_ok] at hm
    cases hq7 : exMapM (dischargeLimitC bp) (List.range data.time.val.length) with
    | error e => simp only [hq7, exBind_error] at hm; exact Except.noConfusion hm
    | ok v7 =>
    have hbrOK : ∀ t < data.time.val.length, (br.lookup t).isSome = true := by
      intro t ht
      obtain ⟨b, hbdy⟩ := exMapM_ok_forall _ _ _ hq1 t (List.mem_range.mpr ht)
      cases hlk : br.lookup t with
      | none => rw [objTerm, hlk] at hbdy; simp [exKey?, exBind_error] at hbdy
      | some q => simp
    have hspOK : cp.sell_price.isSome = true := by
      obtain ⟨b, hbdy⟩ := exMapM_ok_forall _ _ _ hq1 0 hT0
      cases hsp : cp.sell_price with
      | some v => simp
      | none =>
        exfalso
        cases hlk : br.lookup 0 with
        | none => rw [objTerm, hlk] at hbdy; simp [exKey?, exBind_error] at hbdy
        | some q =>
          rw [objTerm, hlk] at hbdy
          simp [exKey?, exKey?_some, hsp, exBind_ok, exBind_error,
            exMap_error] at hbdy
    have hsolarOK : data.time.val.length ≤ data.solar_production.val.length := by
      by_contra hlt
      push_neg at hlt
      obtain ⟨b, hbdy⟩ := exMapM_ok_forall _ _ _ hq2
        data.solar_production.val.length (List.mem_range.mpr hlt)
      rw [solarBalanceC] at hbdy
      have hoor : data.solar_production.val[data.solar_production.val.length]? =
          none := by simp
      simp [exIdx?, hoor] at hbdy
    have hloadOK : data.time.val.length ≤ data.load_demand.val.length := by
      by_contra hlt
      push_neg at hlt
      obtain ⟨b, hbdy⟩ := exMapM_ok_forall _ _ _ hq3
        data.load_demand.val.length (List.mem_range.mpr hlt)
      rw [loadBalanceC] at hbdy
      have hoor : data.load_demand.val[data.load_demand.val.length]? = none := by
        simp
      simp [exIdx?, hoor] at hbdy
    have hkeys4 : bp.initial_soc.isSome = true ∧ bp.capacity_kwh.isSome = true ∧
        bp.charge_efficiency.isSome = true ∧
        bp.discharge_efficiency.isSome = true := by
      obtain ⟨b, hbdy⟩ := exMapM_ok_forall _ _ _ hq4 0 hT0
      rw [batteryDynamicsC, if_pos rfl] at hbdy
      cases k1 : bp.initial_soc with
      | none => rw [k1] at hbdy; simp [exKey?, exBind_error] at hbdy
      | some w1 =>
      rw [k1] at hbdy
      cases k2 : bp.capacity_kwh with
      | none =>
        rw [k2] at hbdy
        simp [exKey?, exKey?_some, exBind_ok, exBind_error, exMap_error] at hbdy
      | some w2 =>
      rw [k2] at hbdy
      cases k3 : bp.charge_efficiency with
      | none =>
        rw [k3] at hbdy
        simp [exKey?, exKey?_some, exBind_ok, exBind_error, exMap_error] at hbdy
      | some w3 =>
      rw [k3] at hbdy
      cases k4 : bp.discharge_efficiency with
      | none =>
        rw [k4] at hbdy
        simp [exKey?, exKey?_some, exBind_ok, exBind_error, exMap_error] at hbdy
      | some w4 => simp
    have hkeys2 : bp.min_soc.isSome = true ∧ bp.max_soc.isSome = true := by
      obtain ⟨b, hbdy⟩ := exMapM_ok_forall _ _ _ hq5 0 hT0
      rw [socBoundsC] at hbdy
      cases k1 : bp.min_soc with
      | none => rw [k1] at hbdy; simp [exKey?, exBind_error] at hbdy
      | some w1 =>
      rw [k1] at hbdy
      cases k2 : bp.capacity_kwh with
      | none =>
        rw [k2] at hbdy
        simp [exKey?, exKey?_some, exBind_ok, exBind_error, exMap_error] at hbdy
      | some w2 =>
      rw [k2] at hbdy
      cases k3 : bp.max_soc with
      | none =>
        rw [k3] at hbdy
        simp [exKey?, exKey?_some, exBind_ok, exBind_error, exMap_error] at hbdy
      | some w3 => simp
    have hmcrOK : bp.max_charge_rate.isSome = true := by
      obtain ⟨b, hbdy⟩ := exMapM_ok_forall _ _ _ hq6 0 hT0
      cases k1 : bp.max_charge_rate with
      | none => rw [chargeLimitC, k1] at hbdy; simp [exKey?, exBind_error] at hbdy
      | some w1 => simp
    have hmdrOK : bp.max_discharge_rate.isSome = true := by
      obtain ⟨b, hbdy⟩ := exMapM_ok_forall _ _ _ hq7 0 hT0
      cases k1 : bp.max_discharge_rate with
      | none => rw [dischargeLimitC, k1] at hbdy; simp [exKey?, exBind_error] at hbdy
      | some w1 => simp
    exact ⟨hbrOK, hspOK, hsolarOK, hloadOK, hkeys4.1, hkeys4.2.1,
      hkeys4.2.2.1, hkeys4.2.2.2, hkeys2.1, hkeys2.2, hmcrOK, hmdrOK⟩
  · intro h
    rcases h with hT0 | hwf
    · refine ⟨Model.mk 0 [] [] (.const 0) .minimize [], ?_⟩
      unfold create_milp_model
      dsimp only
      rw [hT0]
      rfl
    · obtain ⟨hbr, hsp, hsl, hll, k1, k2, k3, k4, k5, k6, k7, k8⟩ := hwf
      refine ⟨_, create_milp_model_ok data bp cp br
        (bp.initial_soc.getD 0) (bp.capacity_kwh.getD 0)
        (bp.charge_efficiency.getD 0) (bp.discharge_efficiency.getD 0)
        (bp.min_soc.getD 0) (bp.max_soc.getD 0)
        (bp.max_charge_rate.getD 0) (bp.max_discharge_rate.getD 0)
        (cp.sell_price.getD 0) (fun t => (br.lookup t).getD 0)
        ⟨opt_eq_some_getD k1 0, opt_eq_some_getD k2 0, opt_eq_some_getD k3 0,
         opt_eq_some_getD k4 0, opt_eq_some_getD k5 0, opt_eq_some_getD k6 0,
         opt_eq_some_getD k7 0, opt_eq_some_getD k8 0, opt_eq_some_getD hsp 0,
         fun t ht => opt_eq_some_getD (hbr t ht) 0, hsl, hll⟩⟩

/-- Claim C7, amended. `create_milp_model` never fails on well-formed input;
on a nonempty horizon it raises a structural error if and only if the input
is not well formed: a buy rate is missing for some step, a required
configuration key is absent, or `solar_production` or `load_demand` is
SHORTER than the time series.  In particular series longer than the time
series — inconsistent lengths — are accepted without error, and errors
surface lazily at the offending read during model construction, since the
builder performs no up-front validation. -/
theorem builder_raises_iff (data : InputData) (bp : BatteryParams)
    (cp : CostParams) (br : List (Nat × ℚ)) :
    (∃ e, create_milp_model data bp cp br = .error e) ↔
      (0 < data.time.val.length ∧ ¬ wellFormedInput data bp cp br) := by
  have hiff := create_milp_model_ok_iff data bp cp br
  constructor
  · intro hex
    obtain ⟨e, he⟩ := hex
    constructor
    · by_contra h0
      push_neg at h0
      obtain ⟨m, hm⟩ := hiff.mpr (Or.inl (Nat.le_zero.mp h0))
      rw [hm] at he
      exact Except.noConfusion he
    · intro hwf
      obtain ⟨m, hm⟩ := hiff.mpr (Or.inr hwf)
      rw [hm] at he
      exact Except.noConfusion he
  · intro hpn
    obtain ⟨hpos, hnwf⟩ := hpn
    cases hc : create_milp_model data bp cp br with
    | error e => exact ⟨e, rfl⟩
    | ok m =>
      exfalso
      rcases hiff.mp ⟨m, hc⟩ with h0 | hwf
      · rw [h0] at hpos
        exact Nat.lt_irrefl 0 hpos
      · exact hnwf hwf

/-- A one-step time series whose `load_demand` series is longer (two
entries): the series lengths are inconsistent. -/
def dataCex : InputData :=
  { time := ⟨0, [⟨10⟩]⟩
    solar_production := ⟨1, [100]⟩
    load_demand := ⟨2, [200, 300]⟩ }

/-- Claim C7 counterexample: the original claim — the builder raises a
structural error IF AND ONLY IF the series lengths are inconsistent or a
configuration key is absent — is false: on `dataCex` the `load_demand`
length (2) differs from the time-series length (1) and every configuration
key is present, yet `create_milp_model` raises nothing. -/
theorem builder_accepts_inconsistent_lengths :
    dataCex.load_demand.val.length ≠ dataCex.time.val.length ∧
    bpW.initial_soc.isSome = true ∧ bpW.capacity_kwh.isSome = true ∧
    bpW.charge_efficiency.isSome = true ∧
    bpW.discharge_efficiency.isSome = true ∧
    bpW.min_soc.isSome = true ∧ bpW.max_soc.isSome = true ∧
    bpW.max_charge_rate.isSome = true ∧ bpW.max_discharge_rate.isSome = true ∧
    cpW.sell_price.isSome = true ∧
    exceptIsOk (create_milp_model dataCex bpW cpW brW) = true := by
  refine ⟨by decide, rfl, rfl, rfl, rfl, rfl, rfl, rfl, rfl, rfl, ?_⟩
  have hok := create_milp_model_ok dataCex bpW cpW brW (22/100) (48/10)
    (95/100) (95/100) (11/100) 1 2780 2370 (195/1000) brvW
    ⟨rfl, rfl, rfl, rfl, rfl, rfl, rfl, rfl, rfl, ?_, by decide, by decide⟩
  · rw [hok]
    rfl
  · intro t ht
    have ht1 : t < 1 := ht
    interval_cases t
    rfl

end Milp4Battery
